import Mathlib

/-! gov: a Go virtual-environment command-line wrapper

A shallow embedding of `main.go`.  The program is a sequence of calls into the
operating system (`os.MkdirAll`, `os.Chdir`, `os.Stat`, `os.Setenv`,
`os.Unsetenv`, `exec.Command(..).Run`) and into `fmt`.  The process state the
program can observe or change is made explicit in `World`; whatever the
operating system and the external programs decide (whether a call fails, with
which error, and what an external program leaves on disk) is a parameter,
`Sys`, so that every theorem quantified over `Sys` covers every outcome.
-/

namespace Gov

/-! ## Process state -/

/-- Kind of a filesystem entry. -/
inductive FileKind where
  | dir
  | file
  deriving DecidableEq, Repr

/-- The filesystem: what is found at an absolute path, if anything. -/
abbrev FS := String → Option FileKind

/-- The environment block of the process: variable name to value, `none` when unset. -/
abbrev Env := String → Option String

/-- An external command as launched by `exec.Command(name, args...).Run()`:
the program, its arguments and the directory it is started in (the working
directory of this process, since `Dir` is never set). -/
structure Cmd where
  name : String
  args : List String
  dir : String
  deriving DecidableEq, Repr

/-- Everything the program reads or writes. `out` is standard output, one entry
per `Println`/`Printf` call (each call ends its text with a newline); `cmds` is
the history of external commands started, oldest first. -/
structure World where
  env : Env
  cwd : String
  fs : FS
  out : List String
  cmds : List Cmd

/-- What lies outside the program: the library function `filepath.Join` (on two
elements); the texts the command library renders (the help of the root
command, a word quoted as `%q` does, and the block of suggestions it appends to
the error for an unknown word, empty when it has none); and the outcome of each
system call and external command.  An error is the message of the Go `error`
value, `none` stands for `nil`.  Every outcome may depend on the whole
state, history included. -/
structure Sys where
  join : String → String → String
  help : String
  quote : String → String
  suggestions : String → String
  mkdirAllErr : World → String → Option String
  chdirErr : World → String → Option String
  runErr : World → Cmd → Option String
  runFs : World → Cmd → FS

/-! ## Operating-system and library calls -/

/-- `os.Getenv`: the value, or the empty string when the variable is unset. -/
def getenv (e : Env) (k : String) : String :=
  (e k).getD ""

/-- `os.Setenv` on the environment block. -/
def setenv (e : Env) (k v : String) : Env :=
  fun x => if x = k then some v else e x

/-- `os.Unsetenv` on the environment block. -/
def unsetenv (e : Env) (k : String) : Env :=
  fun x => if x = k then none else e x

/-- Whether a path is absolute. -/
def isAbs (p : String) : Bool :=
  p.data.head? == some '/'

/-- How the kernel reads a path given to a system call: an absolute path as it
is, a relative one below the working directory. -/
def resolve (cwd p : String) : String :=
  if isAbs p then p else cwd ++ "/" ++ p

/-- `fmt.Println` / `fmt.Printf` with a trailing newline: one more entry of output. -/
def println (w : World) (s : String) : World :=
  { w with out := w.out ++ [s] }

/-- `os.MkdirAll(path, 0755)`: returns the error, and on success the directory
is there. -/
def mkdirAll (sys : Sys) (path : String) (w : World) : Option String × World :=
  match sys.mkdirAllErr w path with
  | some e => (some e, w)
  | none =>
    (none, { w with fs := fun p => if p = resolve w.cwd path then some FileKind.dir else w.fs p })

/-- `os.Chdir(dir)`: returns the error, and on success the working directory
has changed. -/
def chdir (sys : Sys) (dir : String) (w : World) : Option String × World :=
  match sys.chdirErr w dir with
  | some e => (some e, w)
  | none => (none, { w with cwd := resolve w.cwd dir })

/-- `os.Stat(path)` followed by `os.IsNotExist(err)`: true when nothing is found
at the path. -/
def statIsNotExist (path : String) (w : World) : Bool :=
  (w.fs (resolve w.cwd path)).isNone

/-- `exec.Command(name, args...).Run()`: the command is started in the working
directory, runs to completion, may change the filesystem, and its error is
returned.  A child process cannot change the environment or the working
directory of this process. -/
def run (sys : Sys) (name : String) (args : List String) (w : World) : Option String × World :=
  let c : Cmd := { name := name, args := args, dir := w.cwd }
  (sys.runErr w c, { w with fs := sys.runFs w c, cmds := w.cmds ++ [c] })

/-! ## The subcommands -/

/-- A `cobra.Command`: the first word of `Use`, the `Args` validator
(`cobra.ExactArgs n` as `some n`, no validator as `none`) and `Run`. -/
structure Command where
  name : String
  exactArgs : Option Nat
  run : List String → World → World

/-- The package variable `govDir`, computed from `HOME` when the program starts. -/
def govDir (sys : Sys) (e : Env) : String :=
  sys.join (getenv e "HOME") ".gov"

/-- The `Run` function of `initCmd`. -/
def initRun (sys : Sys) (w : World) : World :=
  match run sys "git" ["init"] w with
  | (some err, w1) => println w1 ("Failed to init git: " ++ err)
  | (none, w1) =>
    let w2 := println w1 "Git repository initialized."
    if statIsNotExist "go.mod" w2 then
      match run sys "go" ["mod", "init", "project"] w2 with
      | (some err, w3) => println w3 ("Failed to init go mod: " ++ err)
      | (none, w3) => println w3 "Go module initialized."
    else w2

/-- Subcommand `init`. -/
def initCmd (sys : Sys) : Command :=
  { name := "init", exactArgs := none, run := fun _ w => initRun sys w }

/-- The `Run` function of `buildCmd`. -/
def buildRun (sys : Sys) (w : World) : World :=
  match run sys "go" ["build"] w with
  | (some err, w1) => println w1 ("Failed to build: " ++ err)
  | (none, w1) => println w1 "Project built successfully."

/-- Subcommand `build`. -/
def buildCmd (sys : Sys) : Command :=
  { name := "build", exactArgs := none, run := fun _ w => buildRun sys w }

/-- The `Run` function of `createCmd`, with `name` the value of `args[0]`.  The
result of `os.Chdir` is dropped, and `initCmd().Run` returns nothing. -/
def createRun (sys : Sys) (name : String) (w : World) : World :=
  match mkdirAll sys name w with
  | (some err, w1) => println w1 ("Failed to create directory: " ++ err)
  | (none, w1) =>
    let w2 := (chdir sys name w1).2
    let w3 := (initCmd sys).run [] w2
    println w3 ("Virtual environment project '" ++ name ++ "' created.")

/-- Subcommand `create <name>`.  `args[0]` is present whenever `Run` is reached,
because of `cobra.ExactArgs(1)`. -/
def createCmd (sys : Sys) : Command :=
  { name := "create", exactArgs := some 1, run := fun args w => createRun sys (args.headD "") w }

/-- The `Run` function of `depsCmd`. -/
def depsRun (sys : Sys) (w : World) : World :=
  match run sys "go" ["mod", "tidy"] w with
  | (some err, w1) => println w1 ("Failed to tidy deps: " ++ err)
  | (none, w1) => println w1 "Dependencies managed."

/-- Subcommand `deps`. -/
def depsCmd (sys : Sys) : Command :=
  { name := "deps", exactArgs := none, run := fun _ w => depsRun sys w }

/-- The `Run` function of `activateCmd`; `gd` is the value of `govDir`. -/
def activateRun (sys : Sys) (gd : String) (w : World) : World :=
  let goPath := sys.join gd "go"
  let w1 := { w with env := setenv w.env "GOROOT" goPath }
  let w2 := { w1 with env := setenv w1.env "PATH" (goPath ++ "/bin:" ++ getenv w1.env "PATH") }
  println w2 "Virtual environment activated."

/-- Subcommand `activate`. -/
def activateCmd (sys : Sys) (gd : String) : Command :=
  { name := "activate", exactArgs := none, run := fun _ w => activateRun sys gd w }

/-- The `Run` function of `deactivateCmd`. -/
def deactivateRun (w : World) : World :=
  let w1 := { w with env := unsetenv w.env "GOROOT" }
  println w1 "Virtual environment deactivated."

/-- Subcommand `deactivate`. -/
def deactivateCmd : Command :=
  { name := "deactivate", exactArgs := none, run := fun _ w => deactivateRun w }

/-- The `Run` function of `useCmd`, with `version` the value of `args[0]`. -/
def useRun (version : String) (w : World) : World :=
  println w ("Using Go version " ++ version ++ " in virtual environment.")

/-- Subcommand `use <version>`. -/
def useCmd : Command :=
  { name := "use", exactArgs := some 1, run := fun args w => useRun (args.headD "") w }

/-- The `Run` function of `saveBinCmd`; `gd` is the value of `govDir`. -/
def saveBinRun (sys : Sys) (gd : String) (w : World) : World :=
  match mkdirAll sys gd w with
  | (some err, w1) => println w1 ("Failed to create .gov dir: " ++ err)
  | (none, w1) =>
    let src := "/usr/local/go/bin/go"
    let dst := sys.join gd "go"
    match run sys "cp" [src, dst] w1 with
    | (some err, w2) => println w2 ("Failed to copy go binary: " ++ err)
    | (none, w2) => println w2 "Go binary saved to .gov directory."

/-- Subcommand `save-bin`. -/
def saveBinCmd (sys : Sys) (gd : String) : Command :=
  { name := "save-bin", exactArgs := none, run := fun _ w => saveBinRun sys gd w }

/-! ## Dispatch -/

/-- The subcommands registered on the root command, in the order of `main`. -/
def rootCmd (sys : Sys) (gd : String) : List Command :=
  [initCmd sys, buildCmd sys, createCmd sys, depsCmd sys, activateCmd sys gd,
   deactivateCmd, useCmd, saveBinCmd sys gd]

/-- Look a subcommand up by name. -/
def findCmd (cmds : List Command) (n : String) : Option Command :=
  cmds.find? (fun c => c.name == n)

/-- The names of the subcommands registered in `main`. -/
def subcommands : List String :=
  ["init", "build", "create", "deps", "activate", "deactivate", "use", "save-bin"]

/-- The commands the command library adds to a root command by itself. -/
def builtinCommands : List String :=
  ["help", "completion", "__complete", "__completeNoDesc"]

/-- Whether a word of the command line starts with a dash. -/
def startsWithDash (s : String) : Bool :=
  s.data.head? == some '-'

/-- The error of the flag parser at a word that starts with a dash, for the two
shapes covered here.  No subcommand defines a flag and the library adds only
`--help` / `-h`, so `--name` with another name is an unknown flag and `-c...`
with `c` other than `h` an unknown shorthand flag.  `none` for every other
shape (`-`, `--`, `-h`, `--help`, `--name=value`, ...): not covered. -/
def flagError (s : String) : Option String :=
  match s.data with
  | '-' :: '-' :: c :: cs =>
    if c.isAlphanum && !(cs.contains '=') && (c :: cs) != "help".data then
      some ("unknown flag: --" ++ String.mk (c :: cs))
    else none
  | '-' :: c :: cs =>
    if c.isAlphanum && c != 'h' then
      some ("unknown shorthand flag: '" ++ String.singleton c ++ "' in -" ++ String.mk (c :: cs))
    else none
  | _ => none

/-- What reading the words after a subcommand for flags gives: the positional
arguments, the error of the flag parser, or no answer. -/
inductive Parsed where
  | args (a : List String)
  | error (e : String)
  | unmodelled

/-- Read the words after a subcommand from left to right: a word that does not
start with a dash is a positional argument; the first word that does decides,
with its error when `flagError` covers it and no answer otherwise. -/
def parseFlags : List String → Parsed
  | [] => Parsed.args []
  | s :: rest =>
    if startsWithDash s then
      match flagError s with
      | some e => Parsed.error e
      | none => Parsed.unmodelled
    else
      match parseFlags rest with
      | Parsed.args a => Parsed.args (s :: a)
      | r => r

/-- `rootCmd.Execute()` of the command library, on the command lines covered
here; `none` is no answer, never a guess.  Covered: the empty command line (the
root command has no `Run` and shows its help); `help` alone (the same help); a
first word that is not empty, does not start with a dash and is not a command
the library adds, which is either unknown (the error names it, whatever
follows) or a registered subcommand.  For a registered subcommand the flags are
read first (`parseFlags`), then `cobra.ExactArgs n` rejects any other number of
positional arguments while a subcommand without validator takes any, then
`Run` is called; `Run` has no result, so once it is reached `Execute` returns
`nil`.  What the library writes on an error goes to standard error and is not
part of `out`. -/
def execute (sys : Sys) (cmds : List Command) (args : List String) (w : World) :
    Option (Option String × World) :=
  match args with
  | [] => some (none, println w sys.help)
  | n :: rest =>
    if n = "" ∨ startsWithDash n = true then none
    else if n ∈ builtinCommands then
      (if n = "help" ∧ rest = [] then some (none, println w sys.help) else none)
    else
      match findCmd cmds n with
      | none =>
        some (some ("unknown command " ++ sys.quote n ++ " for \"gov\"" ++ sys.suggestions n), w)
      | some c =>
        match parseFlags rest with
        | Parsed.unmodelled => none
        | Parsed.error e => some (some e, w)
        | Parsed.args a =>
          match c.exactArgs with
          | none => some (none, c.run a w)
          | some k =>
            if a.length = k then some (none, c.run a w)
            else some (some ("accepts " ++ toString k ++ " arg(s), received " ++
              toString a.length), w)

/-- The function `main`: the exit code of the process and the final state, on
the command lines `execute` covers. -/
def main (sys : Sys) (args : List String) (w : World) : Option (Nat × World) :=
  match execute sys (rootCmd sys (govDir sys w.env)) args w with
  | none => none
  | some (some err, w1) => some (1, println w1 err)
  | some (none, w1) => some (0, w1)

/-! ## A concrete system, for evaluation -/

/-- Join two path elements with a slash, an empty element being dropped. -/
def joinPath (a b : String) : String :=
  if a = "" then b else if b = "" then a else a ++ "/" ++ b

/-- A system where every call succeeds and external commands leave the
filesystem as it is; a word is quoted by putting it between double quotes and
no suggestions are made. -/
def okSys : Sys :=
  { join := joinPath, help := "Go virtual environment tool",
    quote := fun s => "\"" ++ s ++ "\"", suggestions := fun _ => "",
    mkdirAllErr := fun _ _ => none, chdirErr := fun _ _ => none,
    runErr := fun _ _ => none, runFs := fun w _ => w.fs }

/-- A starting state: `HOME` and `PATH` set, working directory `/work`, an
empty filesystem apart from the working directory. -/
def w0 : World :=
  { env := fun k => if k = "HOME" then some "/home/u" else if k = "PATH" then some "/usr/bin" else none,
    cwd := "/work",
    fs := fun p => if p = "/work" then some FileKind.dir else none,
    out := [], cmds := [] }

/-- A system where `git` cannot be started and every other call succeeds. -/
def gitFailSys : Sys :=
  { okSys with
    runErr := fun _ c =>
      if c.name = "git" then some "exec: \"git\": executable file not found in $PATH" else none }

/-- A system where `os.Chdir` is refused and every other call succeeds. -/
def chdirFailSys : Sys :=
  { okSys with chdirErr := fun _ d => some ("chdir " ++ d ++ ": permission denied") }

/-- A system where `os.MkdirAll` is refused and every other call succeeds. -/
def mkdirFailSys : Sys :=
  { okSys with mkdirAllErr := fun _ d => some ("mkdir " ++ d ++ ": permission denied") }

/-- The starting state with a `go.mod` file in the working directory. -/
def wMod : World :=
  { w0 with fs := fun p => if p = "/work/go.mod" then some FileKind.file else w0.fs p }

/-! ## Auxiliary facts -/

/-- A text that starts with a fixed non-empty text differs from any text with
another first character. -/
theorem lit_append_ne {a b : String} (e : String)
    (h : (a.data.head?.isSome && (a.data.head? != b.data.head?)) = true) : a ++ e ≠ b := by
  intro heq
  have h2 := congrArg (fun s => s.data.head?) heq
  simp only [String.data_append] at h2
  cases ha : a.data with
  | nil => simp [ha] at h
  | cons c cs =>
    rw [ha] at h2
    simp [ha] at h
    simp at h2
    exact h h2

theorem println_out (w : World) (s : String) : (println w s).out = w.out ++ [s] := rfl

theorem println_cmds (w : World) (s : String) : (println w s).cmds = w.cmds := rfl

theorem println_env (w : World) (s : String) : (println w s).env = w.env := rfl

theorem println_cwd (w : World) (s : String) : (println w s).cwd = w.cwd := rfl

theorem println_fs (w : World) (s : String) : (println w s).fs = w.fs := rfl

theorem run_cmds (sys : Sys) (n : String) (a : List String) (w : World) :
    (run sys n a w).2.cmds = w.cmds ++ [{ name := n, args := a, dir := w.cwd }] := rfl

theorem run_eq (sys : Sys) (n : String) (a : List String) (w : World) :
    run sys n a w =
      (sys.runErr w { name := n, args := a, dir := w.cwd },
       { w with fs := sys.runFs w { name := n, args := a, dir := w.cwd },
                cmds := w.cmds ++ [{ name := n, args := a, dir := w.cwd }] }) := rfl

theorem run_fst (sys : Sys) (n : String) (a : List String) (w : World) :
    (run sys n a w).1 = sys.runErr w { name := n, args := a, dir := w.cwd } := rfl

theorem resolve_goMod (c : String) : resolve c "go.mod" = c ++ "/go.mod" := by
  have h : isAbs "go.mod" = false := by decide
  simp only [resolve, h, Bool.false_eq_true, if_false, String.append_assoc]
  rfl

theorem resolve_eq (c p : String) :
    resolve c p = if p.data.head? = some '/' then p else c ++ "/" ++ p := by
  simp [resolve, isAbs]

theorem parseFlags_plain (rest : List String)
    (hr : ∀ x ∈ rest, x.data.head? ≠ some '-') : parseFlags rest = Parsed.args rest := by
  induction rest with
  | nil => rfl
  | cons x xs ih =>
    have hx : startsWithDash x = false := by
      simpa [startsWithDash] using hr x (List.mem_cons_self _ _)
    have hxs := ih (fun y hy => hr y (List.mem_cons_of_mem _ hy))
    simp [parseFlags, hx, hxs]

theorem findCmd_rootCmd (sys : Sys) (gd n : String) :
    findCmd (rootCmd sys gd) n =
      if n = "init" then some (initCmd sys)
      else if n = "build" then some (buildCmd sys)
      else if n = "create" then some (createCmd sys)
      else if n = "deps" then some (depsCmd sys)
      else if n = "activate" then some (activateCmd sys gd)
      else if n = "deactivate" then some deactivateCmd
      else if n = "use" then some useCmd
      else if n = "save-bin" then some (saveBinCmd sys gd)
      else none := by
  have hb : ∀ a : String, (a == n) = decide (n = a) := by
    intro a
    by_cases h : n = a
    · simp [h]
    · have h2 : ¬ a = n := fun e => h e.symm
      simp [h, h2]
  simp only [findCmd, rootCmd, List.find?, initCmd, buildCmd, createCmd, depsCmd, activateCmd,
    deactivateCmd, useCmd, saveBinCmd, hb]
  split_ifs <;> simp [*]

theorem accepts_one (x : String) :
    "accepts " ++ toString 1 ++ " arg(s), received " ++ x = "accepts 1 arg(s), received " ++ x := by
  have h : "accepts " ++ toString 1 ++ " arg(s), received " = "accepts 1 arg(s), received " := by
    decide
  rw [h]

/-- How `execute` goes on for a first word that is covered and followed by
positional words only. -/
theorem execute_plain (sys : Sys) (cmds : List Command) (n : String) (rest : List String)
    (w : World) (hn : n ≠ "") (hd : n.data.head? ≠ some '-') (hb : n ∉ builtinCommands)
    (hr : ∀ x ∈ rest, x.data.head? ≠ some '-') :
    execute sys cmds (n :: rest) w =
      match findCmd cmds n with
      | none =>
        some (some ("unknown command " ++ sys.quote n ++ " for \"gov\"" ++ sys.suggestions n), w)
      | some c =>
        match c.exactArgs with
        | none => some (none, c.run rest w)
        | some k =>
          if rest.length = k then some (none, c.run rest w)
          else some (some ("accepts " ++ toString k ++ " arg(s), received " ++
            toString rest.length), w) := by
  have hs : startsWithDash n = false := by simpa [startsWithDash] using hd
  simp only [execute, hn, hs, hb, Bool.false_eq_true, or_self, if_false, parseFlags_plain rest hr]

/-- How `main` reaches each `Run` function: followed by positional words, in the
right number, the subcommand runs, on the state and with the `govDir` of the
start of the program, and the exit code is 0. -/
theorem main_dispatch (sys : Sys) (rest : List String) (a : String) (w : World)
    (hr : ∀ x ∈ rest, x.data.head? ≠ some '-') (ha : a.data.head? ≠ some '-') :
    main sys ("init" :: rest) w = some (0, initRun sys w) ∧
    main sys ("build" :: rest) w = some (0, buildRun sys w) ∧
    main sys ["create", a] w = some (0, createRun sys a w) ∧
    main sys ("deps" :: rest) w = some (0, depsRun sys w) ∧
    main sys ("activate" :: rest) w = some (0, activateRun sys (govDir sys w.env) w) ∧
    main sys ("deactivate" :: rest) w = some (0, deactivateRun w) ∧
    main sys ["use", a] w = some (0, useRun a w) ∧
    main sys ("save-bin" :: rest) w = some (0, saveBinRun sys (govDir sys w.env) w) := by
  have h1 : ∀ x ∈ [a], x.data.head? ≠ some '-' := by
    intro x hx
    rw [List.mem_singleton] at hx
    rw [hx]
    exact ha
  refine ⟨?_, ?_, ?_, ?_, ?_, ?_, ?_, ?_⟩
  · rw [main, execute_plain sys _ "init" rest w (by decide) (by decide) (by decide) hr]; rfl
  · rw [main, execute_plain sys _ "build" rest w (by decide) (by decide) (by decide) hr]; rfl
  · rw [main, execute_plain sys _ "create" [a] w (by decide) (by decide) (by decide) h1]; rfl
  · rw [main, execute_plain sys _ "deps" rest w (by decide) (by decide) (by decide) hr]; rfl
  · rw [main, execute_plain sys _ "activate" rest w (by decide) (by decide) (by decide) hr]; rfl
  · rw [main, execute_plain sys _ "deactivate" rest w (by decide) (by decide) (by decide) hr]; rfl
  · rw [main, execute_plain sys _ "use" [a] w (by decide) (by decide) (by decide) h1]; rfl
  · rw [main, execute_plain sys _ "save-bin" rest w (by decide) (by decide) (by decide) hr]; rfl

/-- A run of `create proj` and of `save-bin` where every call succeeds. -/
theorem main_all_ok :
    (main okSys ["create", "proj"] w0).map (fun r => (r.1, r.2.cwd, r.2.out)) =
      some (0, "/work/proj",
        ["Git repository initialized.", "Go module initialized.",
         "Virtual environment project 'proj' created."]) ∧
    (main okSys ["save-bin"] w0).map (fun r => r.2.cmds) =
      some [{ name := "cp", args := ["/usr/local/go/bin/go", "/home/u/.gov/go"],
              dir := "/work" }] := by
  decide

/-! ## init -/

/-- C3: `init` starts `git init` first, in the working directory, whatever the
state; after it `go mod init project` is started, once, exactly when `git init`
returned no error and nothing is found at `go.mod` in the working directory (on
the filesystem as `git init` left it); no other external command is started.
In particular with `go.mod` present no module initialisation is started. -/
theorem initRun_commands (sys : Sys) (w : World) :
    (initRun sys w).cmds =
      w.cmds ++ ({ name := "git", args := ["init"], dir := w.cwd } ::
        (if sys.runErr w { name := "git", args := ["init"], dir := w.cwd } = none ∧
            sys.runFs w { name := "git", args := ["init"], dir := w.cwd }
              (w.cwd ++ "/go.mod") = none
         then [{ name := "go", args := ["mod", "init", "project"], dir := w.cwd }]
         else [])) := by
  unfold initRun
  simp only [run_eq]
  generalize sys.runErr w { name := "git", args := ["init"], dir := w.cwd } = e
  cases e with
  | some err => simp [println]
  | none =>
    simp only [statIsNotExist, println, resolve_goMod, true_and]
    cases hf : sys.runFs w { name := "git", args := ["init"], dir := w.cwd } (w.cwd ++ "/go.mod") with
    | some k => simp
    | none =>
      simp only [Option.isNone_none, if_true]
      generalize sys.runErr _ { name := "go", args := ["mod", "init", "project"], dir := w.cwd } = e2
      cases e2 <;> simp

/-- C3 at two concrete states, every call succeeding: with a `go.mod` file in
the working directory `init` starts `git init` only; without one it starts
`git init` and then `go mod init project`. -/
theorem initRun_commands_witness :
    (initRun okSys wMod).cmds = [{ name := "git", args := ["init"], dir := "/work" }] ∧
    (initRun okSys w0).cmds =
      [{ name := "git", args := ["init"], dir := "/work" },
       { name := "go", args := ["mod", "init", "project"], dir := "/work" }] :=
  ⟨(initRun_commands okSys wMod).trans (by decide),
   (initRun_commands okSys w0).trans (by decide)⟩

/-! ## build and deps -/

/-- C9: `build` starts exactly one external command, `go` with arguments
`["build"]`, and `deps` exactly one, `go` with arguments `["mod", "tidy"]`, each
in the working directory; neither changes the environment or the working
directory; each prints one line, its failure message followed by the error when
the command returned one and its success message otherwise, so the success
message is printed exactly when the command succeeded. -/
theorem buildRun_depsRun_spec (sys : Sys) (w : World) :
    ((buildRun sys w).cmds = w.cmds ++ [{ name := "go", args := ["build"], dir := w.cwd }] ∧
      (buildRun sys w).env = w.env ∧ (buildRun sys w).cwd = w.cwd ∧
      (buildRun sys w).out = w.out ++
        [match sys.runErr w { name := "go", args := ["build"], dir := w.cwd } with
         | some err => "Failed to build: " ++ err
         | none => "Project built successfully."] ∧
      ((buildRun sys w).out = w.out ++ ["Project built successfully."] ↔
        sys.runErr w { name := "go", args := ["build"], dir := w.cwd } = none)) ∧
    ((depsRun sys w).cmds = w.cmds ++ [{ name := "go", args := ["mod", "tidy"], dir := w.cwd }] ∧
      (depsRun sys w).env = w.env ∧ (depsRun sys w).cwd = w.cwd ∧
      (depsRun sys w).out = w.out ++
        [match sys.runErr w { name := "go", args := ["mod", "tidy"], dir := w.cwd } with
         | some err => "Failed to tidy deps: " ++ err
         | none => "Dependencies managed."] ∧
      ((depsRun sys w).out = w.out ++ ["Dependencies managed."] ↔
        sys.runErr w { name := "go", args := ["mod", "tidy"], dir := w.cwd } = none)) := by
  constructor
  · unfold buildRun
    rw [run_eq]
    generalize sys.runErr w { name := "go", args := ["build"], dir := w.cwd } = e
    cases e with
    | none => simp [println]
    | some err =>
      simp only [println, List.append_cancel_left_eq, List.cons.injEq, and_true, true_and,
        reduceCtorEq, iff_false]
      exact @lit_append_ne "Failed to build: " "Project built successfully." err (by decide)
  · unfold depsRun
    rw [run_eq]
    generalize sys.runErr w { name := "go", args := ["mod", "tidy"], dir := w.cwd } = e
    cases e with
    | none => simp [println]
    | some err =>
      simp only [println, List.append_cancel_left_eq, List.cons.injEq, and_true, true_and,
        reduceCtorEq, iff_false]
      exact @lit_append_ne "Failed to tidy deps: " "Dependencies managed." err (by decide)

/-! ## activate and deactivate -/

/-- C4: after `activate`, `GOROOT` is `filepath.Join(filepath.Join(HOME, ".gov"), "go")`
and `PATH` is that path, then `/bin:`, then the value `PATH` had before (the
empty string when it was unset); every other variable keeps its value, and the
working directory, the filesystem and the history of external commands are as
before. -/
theorem activateRun_spec (sys : Sys) (w : World) :
    (activateRun sys (govDir sys w.env) w).env "GOROOT" =
        some (sys.join (sys.join (getenv w.env "HOME") ".gov") "go") ∧
    (activateRun sys (govDir sys w.env) w).env "PATH" =
        some (sys.join (sys.join (getenv w.env "HOME") ".gov") "go" ++ "/bin:" ++
          getenv w.env "PATH") ∧
    (∀ k, k ≠ "GOROOT" → k ≠ "PATH" →
        (activateRun sys (govDir sys w.env) w).env k = w.env k) ∧
    (activateRun sys (govDir sys w.env) w).cmds = w.cmds ∧
    (activateRun sys (govDir sys w.env) w).cwd = w.cwd ∧
    (activateRun sys (govDir sys w.env) w).fs = w.fs := by
  refine ⟨?_, ?_, ?_, rfl, rfl, rfl⟩
  · simp [activateRun, println, setenv, govDir]
  · simp [activateRun, println, setenv, govDir, getenv]
  · intro k h1 h2
    simp [activateRun, println, setenv, h1, h2]

/-- C5, as the code has it: `deactivate` unsets `GOROOT` and nothing else: every
other variable, `PATH` included, keeps its value, so after `activate` followed
by `deactivate` the variable `GOROOT` is unset and `PATH` still starts with the
entry `activate` put in front. -/
theorem deactivateRun_spec (sys : Sys) (w : World) :
    (deactivateRun w).env "GOROOT" = none ∧
    (∀ k, k ≠ "GOROOT" → (deactivateRun w).env k = w.env k) ∧
    (deactivateRun (activateRun sys (govDir sys w.env) w)).env "GOROOT" = none ∧
    (deactivateRun (activateRun sys (govDir sys w.env) w)).env "PATH" =
        some (sys.join (govDir sys w.env) "go" ++ "/bin:" ++ getenv w.env "PATH") := by
  refine ⟨?_, ?_, ?_, ?_⟩
  · simp [deactivateRun, println, unsetenv]
  · intro k h
    simp [deactivateRun, println, unsetenv, h]
  · simp [deactivateRun, println, unsetenv]
  · simp [deactivateRun, activateRun, println, unsetenv, setenv, getenv]

/-- C5, as stated, fails: from a state with `PATH=/usr/bin`, after `activate`
and then `deactivate` the variable `PATH` still has the value `activate` gave
it, which is not the value it had at the start. -/
theorem deactivate_keeps_activated_path :
    (deactivateRun (activateRun okSys (govDir okSys w0.env) w0)).env "PATH" =
        (activateRun okSys (govDir okSys w0.env) w0).env "PATH" ∧
    (deactivateRun (activateRun okSys (govDir okSys w0.env) w0)).env "PATH" =
        some "/home/u/.gov/go/bin:/usr/bin" ∧
    w0.env "PATH" = some "/usr/bin" := by
  decide

/-! ## use -/

/-- C8, as stated, fails: `use -1` never reaches `Run`; the word `-1` is read as
a flag, the error of the flag parser is printed and the exit code is 1, so the
line `Using Go version -1 in virtual environment.` is not the output. -/
theorem use_dash_version :
    (main okSys ["use", "-1"] w0).map (fun r => (r.1, r.2.out)) =
      some (1, ["unknown shorthand flag: '1' in -1"]) ∧
    (main okSys ["use", "-1"] w0).map (fun r => r.2.out) ≠
      some (w0.out ++ ["Using Go version -1 in virtual environment."]) := by
  decide

/-- C8, amended: whenever `Run` of `use` is called with version `v` it leaves the
environment, the working directory, the filesystem and the history of external
commands as they were and adds exactly one line of output,
`Using Go version v in virtual environment.`; and for every `v` that does not
start with a dash the command line `use v` reaches `Run` with that `v` and
exits with 0, so that line is its whole output. -/
theorem use_is_stub (sys : Sys) (v : String) (w : World) :
    ((useRun v w).env = w.env ∧ (useRun v w).cwd = w.cwd ∧ (useRun v w).fs = w.fs ∧
      (useRun v w).cmds = w.cmds ∧
      (useRun v w).out = w.out ++ ["Using Go version " ++ v ++ " in virtual environment."]) ∧
    (v.data.head? ≠ some '-' →
      (main sys ["use", v] w).map (fun r => (r.1, r.2.out, r.2.cmds)) =
        some (0, w.out ++ ["Using Go version " ++ v ++ " in virtual environment."], w.cmds) ∧
      (main sys ["use", v] w).map (fun r => r.2.env) = some w.env ∧
      (main sys ["use", v] w).map (fun r => r.2.cwd) = some w.cwd ∧
      (main sys ["use", v] w).map (fun r => r.2.fs) = some w.fs) := by
  refine ⟨⟨rfl, rfl, rfl, rfl, rfl⟩, ?_⟩
  intro hv
  have h1 : ∀ x ∈ [v], x.data.head? ≠ some '-' := by
    intro x hx
    rw [List.mem_singleton] at hx
    rw [hx]
    exact hv
  have hm : main sys ["use", v] w = some (0, useRun v w) := by
    rw [main, execute_plain sys _ "use" [v] w (by decide) (by decide) (by decide) h1]
    rfl
  rw [hm]
  exact ⟨rfl, rfl, rfl, rfl⟩

/-- C8, amended, at a concrete command line: `use 1.21` from the starting state. -/
theorem use_is_stub_witness :
    (main okSys ["use", "1.21"] w0).map (fun r => (r.1, r.2.out, r.2.cmds)) =
      some (0, ["Using Go version 1.21 in virtual environment."], []) :=
  ((use_is_stub okSys "1.21" w0).2 (by decide)).1

/-! ## save-bin -/

theorem mkdirAll_eq (sys : Sys) (path : String) (w : World) :
    mkdirAll sys path w =
      match sys.mkdirAllErr w path with
      | some e => (some e, w)
      | none =>
        (none, { w with fs := fun p => if p = resolve w.cwd path then some FileKind.dir else w.fs p }) := rfl

/-- C7: `save-bin` first calls `os.MkdirAll` on `filepath.Join(HOME, ".gov")`.
When that fails no external command is started; when it succeeds the directory
is there and exactly one external command is started,
`cp /usr/local/go/bin/go filepath.Join(filepath.Join(HOME, ".gov"), "go")`, with a
source path that does not depend on the input.  One line is printed, and it is
the success message exactly when both the directory creation and the copy
returned no error. -/
theorem saveBinRun_spec (sys : Sys) (w : World) :
    (saveBinRun sys (govDir sys w.env) w).cmds =
      w.cmds ++
        (if sys.mkdirAllErr w (sys.join (getenv w.env "HOME") ".gov") = none
         then [{ name := "cp",
                 args := ["/usr/local/go/bin/go",
                          sys.join (sys.join (getenv w.env "HOME") ".gov") "go"],
                 dir := w.cwd }]
         else []) ∧
    (sys.mkdirAllErr w (sys.join (getenv w.env "HOME") ".gov") = none →
      (mkdirAll sys (govDir sys w.env) w).2.fs
        (resolve w.cwd (sys.join (getenv w.env "HOME") ".gov")) = some FileKind.dir) ∧
    (∃ line, (saveBinRun sys (govDir sys w.env) w).out = w.out ++ [line] ∧
      (line = "Go binary saved to .gov directory." ↔
        sys.mkdirAllErr w (sys.join (getenv w.env "HOME") ".gov") = none ∧
        sys.runErr (mkdirAll sys (govDir sys w.env) w).2
          { name := "cp",
            args := ["/usr/local/go/bin/go",
                     sys.join (sys.join (getenv w.env "HOME") ".gov") "go"],
            dir := w.cwd } = none)) := by
  unfold saveBinRun
  simp only [mkdirAll_eq, govDir]
  generalize hm : sys.mkdirAllErr w (sys.join (getenv w.env "HOME") ".gov") = m
  cases m with
  | some e =>
    refine ⟨by simp [println], by simp, ?_⟩
    refine ⟨"Failed to create .gov dir: " ++ e, rfl, ?_⟩
    simp only [reduceCtorEq, false_and, iff_false]
    exact @lit_append_ne "Failed to create .gov dir: " "Go binary saved to .gov directory." e
      (by decide)
  | none =>
    simp only [run_eq]
    refine ⟨?_, by simp, ?_⟩
    · generalize sys.runErr _ _ = r
      cases r <;> simp [println]
    · generalize sys.runErr _ _ = r
      cases r with
      | some e =>
        refine ⟨"Failed to copy go binary: " ++ e, rfl, ?_⟩
        simp only [reduceCtorEq, and_false, iff_false]
        exact @lit_append_ne "Failed to copy go binary: " "Go binary saved to .gov directory." e
          (by decide)
      | none => exact ⟨"Go binary saved to .gov directory.", rfl, by simp⟩

/-- C10: for every value of `HOME`, when `save-bin` gets as far as the copy, the
destination it hands to `cp` is the very path `activate` stores in `GOROOT`, and
the entry `activate` puts in front of `PATH` is that destination followed by
`/bin`. -/
theorem saveBin_dst_eq_goroot (sys : Sys) (w : World)
    (hmk : sys.mkdirAllErr w (govDir sys w.env) = none) :
    ∃ dst : String,
      (saveBinRun sys (govDir sys w.env) w).cmds =
        w.cmds ++ [{ name := "cp", args := ["/usr/local/go/bin/go", dst], dir := w.cwd }] ∧
      (activateRun sys (govDir sys w.env) w).env "GOROOT" = some dst ∧
      (activateRun sys (govDir sys w.env) w).env "PATH" =
        some (dst ++ "/bin" ++ ":" ++ getenv w.env "PATH") := by
  refine ⟨sys.join (govDir sys w.env) "go", ?_, ?_, ?_⟩
  · unfold saveBinRun
    simp only [mkdirAll_eq, hmk, run_eq]
    generalize sys.runErr _ _ = r
    cases r <;> simp [println]
  · simp [activateRun, println, setenv]
  · simp [activateRun, println, setenv, getenv, String.append_assoc]

/-- C10 at a concrete state: `HOME=/home/u`, every call succeeding. -/
theorem saveBin_dst_eq_goroot_witness :
    okSys.mkdirAllErr w0 (govDir okSys w0.env) = none ∧
    ∃ dst : String,
      (saveBinRun okSys (govDir okSys w0.env) w0).cmds =
        w0.cmds ++ [{ name := "cp", args := ["/usr/local/go/bin/go", dst], dir := w0.cwd }] ∧
      (activateRun okSys (govDir okSys w0.env) w0).env "GOROOT" = some dst ∧
      (activateRun okSys (govDir okSys w0.env) w0).env "PATH" =
        some (dst ++ "/bin" ++ ":" ++ getenv w0.env "PATH") :=
  ⟨rfl, saveBin_dst_eq_goroot okSys w0 rfl⟩

/-! ## create -/

theorem initRun_cwd (sys : Sys) (w : World) : (initRun sys w).cwd = w.cwd := by
  unfold initRun
  simp only [run_eq]
  generalize sys.runErr w _ = r
  cases r with
  | some e => rfl
  | none =>
    simp only
    split
    · generalize sys.runErr _ _ = r2
      cases r2 <;> rfl
    · rfl

theorem initRun_keeps_dir (sys : Sys) (w : World) (p : String)
    (hkeep : ∀ (v : World) (c : Cmd),
      c ∈ [({ name := "git", args := ["init"], dir := w.cwd } : Cmd),
           { name := "go", args := ["mod", "init", "project"], dir := w.cwd }] →
      v.fs p = some FileKind.dir → sys.runFs v c p = some FileKind.dir)
    (h : w.fs p = some FileKind.dir) : (initRun sys w).fs p = some FileKind.dir := by
  have hg := hkeep w { name := "git", args := ["init"], dir := w.cwd } (by simp) h
  unfold initRun
  simp only [run_eq]
  generalize sys.runErr w _ = r
  cases r with
  | some e => exact hg
  | none =>
    simp only
    split
    · generalize sys.runErr _ _ = r2
      cases r2 <;> exact hkeep _ _ (by simp [println]) hg
    · exact hg

/-- C2, as stated, fails: when `os.MkdirAll` is refused, `create proj` prints
the error and returns; no directory `proj` exists and the working directory is
still the one from before, not `proj` below it. -/
theorem create_mkdir_refused :
    (main mkdirFailSys ["create", "proj"] w0).map (fun r => r.2.fs (resolve w0.cwd "proj")) =
      some none ∧
    (main mkdirFailSys ["create", "proj"] w0).map (fun r => r.2.cwd) = some w0.cwd ∧
    (main mkdirFailSys ["create", "proj"] w0).map (fun r => r.2.cwd) ≠
      some (resolve w0.cwd "proj") ∧
    (main mkdirFailSys ["create", "proj"] w0).map (fun r => r.2.out) =
      some ["Failed to create directory: mkdir proj: permission denied"] := by
  decide

/-- C2, amended: for every name, when `os.MkdirAll` fails, `create <name>` prints
`Failed to create directory:` with the error and does nothing else: the working
directory, the filesystem and the environment are unchanged and no external
command is started.  When `os.MkdirAll` and `os.Chdir` both succeed, the
working directory after `create <name>` is `name` read against the directory
that was current before (`name` itself when absolute, otherwise that directory,
a slash and `name`); and when `git init` and `go mod init project`, started
there, do not remove that directory, it exists as a directory afterwards. -/
theorem createRun_spec (sys : Sys) (name : String) (w : World) :
    (∀ err, sys.mkdirAllErr w name = some err →
      createRun sys name w = println w ("Failed to create directory: " ++ err)) ∧
    (sys.mkdirAllErr w name = none →
      sys.chdirErr (mkdirAll sys name w).2 name = none →
      (createRun sys name w).cwd = resolve w.cwd name ∧
      resolve w.cwd name = (if name.data.head? = some '/' then name else w.cwd ++ "/" ++ name) ∧
      ((∀ (v : World) (c : Cmd),
          c ∈ [({ name := "git", args := ["init"], dir := resolve w.cwd name } : Cmd),
               { name := "go", args := ["mod", "init", "project"],
                 dir := resolve w.cwd name }] →
          v.fs (resolve w.cwd name) = some FileKind.dir →
          sys.runFs v c (resolve w.cwd name) = some FileKind.dir) →
        (createRun sys name w).fs (resolve w.cwd name) = some FileKind.dir)) := by
  constructor
  · intro err herr
    unfold createRun
    rw [mkdirAll_eq, herr]
  · intro hmk hcd
    have hm : mkdirAll sys name w =
        (none, { w with fs := fun p =>
          if p = resolve w.cwd name then some FileKind.dir else w.fs p }) := by
      rw [mkdirAll_eq, hmk]
    rw [hm] at hcd
    refine ⟨?_, resolve_eq _ _, ?_⟩
    · unfold createRun
      simp only [hm, chdir, hcd, initCmd, println_cwd, initRun_cwd]
    · intro hkeep
      unfold createRun
      simp only [hm, chdir, hcd, initCmd, println_fs]
      apply initRun_keeps_dir sys _ _ hkeep
      simp

/-- C2, amended, at concrete states: `create proj` from `/work` with
`os.MkdirAll` refused, and with every call succeeding. -/
theorem createRun_spec_witness :
    createRun mkdirFailSys "proj" w0 =
      println w0 "Failed to create directory: mkdir proj: permission denied" ∧
    (createRun okSys "proj" w0).cwd = "/work/proj" ∧
    (createRun okSys "proj" w0).fs "/work/proj" = some FileKind.dir :=
  ⟨(createRun_spec mkdirFailSys "proj" w0).1 "mkdir proj: permission denied" rfl,
   ((createRun_spec okSys "proj" w0).2 rfl rfl).1,
   ((createRun_spec okSys "proj" w0).2 rfl rfl).2.2 (fun _ _ _ h => h)⟩

/-- C1 at `create`: when `git init` fails inside `create proj`, the failure is
printed and then the success message of `create` is printed all the same, with
exit code 0; and when `os.Chdir` fails, no error is printed at all, `git init`
and `go mod init project` are started in the old working directory and the
success message is printed. -/
theorem create_continues_after_failure :
    (main gitFailSys ["create", "proj"] w0).map (fun r => r.2.out) =
      some ["Failed to init git: exec: \"git\": executable file not found in $PATH",
            "Virtual environment project 'proj' created."] ∧
    (main gitFailSys ["create", "proj"] w0).map (fun r => r.1) = some 0 ∧
    (main chdirFailSys ["create", "proj"] w0).map (fun r => r.2.out) =
      some ["Git repository initialized.", "Go module initialized.",
            "Virtual environment project 'proj' created."] ∧
    (main chdirFailSys ["create", "proj"] w0).map (fun r => r.2.cwd) = some "/work" ∧
    (main chdirFailSys ["create", "proj"] w0).map (fun r => r.2.cmds) =
      some [{ name := "git", args := ["init"], dir := "/work" },
            { name := "go", args := ["mod", "init", "project"], dir := "/work" }] := by
  decide

/-! ## Dispatch and exit code -/

/-- C6, as stated, fails: `help` is none of the subcommands of the program and
`gov help` exits with 0; `build` is one of them and `gov build --race`, with no
positional argument at all, exits with 1 after printing the error of the flag
parser, without starting a command. -/
theorem exit_code_help_and_flag :
    "help" ∉ subcommands ∧
    (main okSys ["help"] w0).map (fun r => r.1) = some 0 ∧
    "build" ∈ subcommands ∧
    (main okSys ["build", "--race"] w0).map (fun r => (r.1, r.2.out, r.2.cmds)) =
      some (1, ["unknown flag: --race"], []) := by
  decide

/-- C6, amended: for every command line whose first word is not empty and is
not `help`, `completion`, `__complete` or `__completeNoDesc`, and none of
whose words starts with a dash, and for every outcome of the system calls and
external commands: the exit code is 1 when the first word is not a registered
subcommand or when `create` or `use` gets a number of arguments other than one,
and 0 otherwise.  In the first case the one line
`unknown command <quoted word> for "gov"<suggestions>`, in the second the one
line `accepts 1 arg(s), received <number>`, is printed and nothing else
happens: no external command is started.  The empty command line prints the
help and exits with 0. -/
theorem main_exit_code (sys : Sys) (n : String) (rest : List String) (w : World)
    (hn : n ≠ "")
    (hb : n ∉ ["help", "completion", "__complete", "__completeNoDesc"])
    (hw : ∀ a ∈ n :: rest, a.data.head? ≠ some '-') :
    (main sys (n :: rest) w).map (fun r => r.1) =
      some (if n ∉ subcommands ∨ ((n = "create" ∨ n = "use") ∧ rest.length ≠ 1)
            then 1 else 0) ∧
    (n ∉ subcommands →
      main sys (n :: rest) w =
        some (1, println w ("unknown command " ++ sys.quote n ++ " for \"gov\"" ++
          sys.suggestions n))) ∧
    ((n = "create" ∨ n = "use") → rest.length ≠ 1 →
      main sys (n :: rest) w =
        some (1, println w ("accepts 1 arg(s), received " ++ toString rest.length))) ∧
    main sys [] w = some (0, println w sys.help) := by
  have hd : n.data.head? ≠ some '-' := hw n (List.mem_cons_self _ _)
  have hr : ∀ x ∈ rest, x.data.head? ≠ some '-' := fun x hx => hw x (List.mem_cons_of_mem _ hx)
  have he := execute_plain sys (rootCmd sys (govDir sys w.env)) n rest w hn hd hb hr
  rw [findCmd_rootCmd] at he
  refine ⟨?_, ?_, ?_, rfl⟩
  · simp only [main, he]
    by_cases h1 : n = "init"
    · subst h1; simp [subcommands, initCmd]
    by_cases h2 : n = "build"
    · subst h2; simp [subcommands, buildCmd]
    by_cases h3 : n = "create"
    · subst h3
      by_cases hl : rest.length = 1 <;> simp [subcommands, createCmd, hl]
    by_cases h4 : n = "deps"
    · subst h4; simp [subcommands, depsCmd]
    by_cases h5 : n = "activate"
    · subst h5; simp [subcommands, activateCmd]
    by_cases h6 : n = "deactivate"
    · subst h6; simp [subcommands, deactivateCmd]
    by_cases h7 : n = "use"
    · subst h7
      by_cases hl : rest.length = 1 <;> simp [subcommands, useCmd, hl]
    by_cases h8 : n = "save-bin"
    · subst h8; simp [subcommands, saveBinCmd]
    simp [h1, h2, h3, h4, h5, h6, h7, h8, subcommands]
  · intro hns
    simp only [subcommands, List.mem_cons, List.mem_singleton, List.not_mem_nil, or_false,
      not_or] at hns
    obtain ⟨h1, h2, h3, h4, h5, h6, h7, h8⟩ := hns
    simp only [main, he, h1, h2, h3, h4, h5, h6, h7, h8, if_false]
  · intro hcu hl
    rcases hcu with h | h
    · subst h
      simp [main, he, createCmd, hl, accepts_one]
    · subst h
      simp [main, he, useCmd, hl, accepts_one]

/-- C6, amended, at concrete command lines: an unknown word and `create` with
two arguments. -/
theorem main_exit_code_witness :
    main okSys ["frobnicate"] w0 =
      some (1, println w0 "unknown command \"frobnicate\" for \"gov\"") ∧
    main okSys ["create", "a", "b"] w0 =
      some (1, println w0 "accepts 1 arg(s), received 2") ∧
    (main gitFailSys ["create", "proj"] w0).map (fun r => r.1) = some 0 :=
  ⟨(main_exit_code okSys "frobnicate" [] w0 (by decide) (by decide) (by decide)).2.1
      (by decide),
   (main_exit_code okSys "create" ["a", "b"] w0 (by decide) (by decide) (by decide)).2.2.1
      (Or.inl rfl) (by decide),
   (main_exit_code gitFailSys "create" ["proj"] w0 (by decide) (by decide) (by decide)).1⟩

/-- C7 at a concrete state: from `HOME=/home/u` with every call succeeding,
`save-bin` starts the one copy command and prints the success message. -/
theorem saveBinRun_spec_witness :
    (saveBinRun okSys (govDir okSys w0.env) w0).cmds =
      [{ name := "cp", args := ["/usr/local/go/bin/go", "/home/u/.gov/go"], dir := "/work" }] ∧
    (mkdirAll okSys (govDir okSys w0.env) w0).2.fs "/home/u/.gov" = some FileKind.dir :=
  ⟨(saveBinRun_spec okSys w0).1, (saveBinRun_spec okSys w0).2.1 rfl⟩

end Gov
